import Mathlib

/-!
Verification of the CineAI editor core (src/components/Editor.tsx and the
shared types in src/unnamed/part_000) via a shallow embedding in Lean 4.

Numbers that are JavaScript doubles in the source are modelled as rationals.
State mutated through React refs and useState hooks is modelled as explicit
record fields of an editor state, and each event handler / effect becomes a
state-transition function.
-/

namespace CineAI

/-- Asset kinds, from the shared types module (enum AssetType). -/
inductive AssetType where
  | image
  | video
deriving DecidableEq

/-- Media asset record, from the shared types module (interface Asset).
The optional thumbnail field is never consulted by the Editor and is omitted. -/
structure Asset where
  id : String
  type : AssetType
  url : String
  prompt : String
  createdAt : Nat
deriving DecidableEq

/-- The EditParams record of Editor.tsx. -/
structure EditParams where
  brightness : ℚ
  contrast : ℚ
  saturate : ℚ
  blur : ℚ
  opacity : ℚ
  volume : ℚ
  speed : ℚ
  zoom : ℚ
  rotate : ℚ
  noiseReduction : Bool
  voiceIsolation : Bool
deriving DecidableEq

/-- DEFAULT_PARAMS of Editor.tsx. -/
def DEFAULT_PARAMS : EditParams :=
  { brightness := 100
  , contrast := 100
  , saturate := 100
  , blur := 0
  , opacity := 100
  , volume := 100
  , speed := 1
  , zoom := 1
  , rotate := 0
  , noiseReduction := false
  , voiceIsolation := false }

/-- The Transform record of Editor.tsx (position, scale, rotation of a
draggable element). -/
structure Transform where
  x : ℚ
  y : ℚ
  scale : ℚ
  rotation : ℚ
deriving DecidableEq

/-- The activeToolCategory union type of Editor.tsx. -/
inductive ToolCategory where
  | main
  | overlay
  | audio
  | ai
deriving DecidableEq

/-- The BiquadFilterNode type values the Editor assigns
(lowpass / bandpass / allpass). -/
inductive BiquadType where
  | lowpass
  | bandpass
  | allpass
deriving DecidableEq

/-- Observable state of the single BiquadFilterNode of the audio graph. -/
structure FilterState where
  type : BiquadType
  frequency : ℚ
  q : ℚ
deriving DecidableEq

/-- A freshly created BiquadFilterNode (ctx.createBiquadFilter()) has the
Web Audio defaults: type lowpass, frequency 350 Hz, Q 1. -/
def defaultBiquad : FilterState :=
  { type := BiquadType.lowpass, frequency := 350, q := 1 }

/-- State held in audioCtxRef / sourceNodeRef / filterNodeRef, plus a count
of created source-to-filter-to-output routings and of console.warn logs. -/
structure AudioState where
  ctxCreated : Bool
  sourceNode : Bool
  filterNode : Option FilterState
  routings : Nat
  warnings : Nat
deriving DecidableEq

/-- Audio refs before any setup call. -/
def initAudio : AudioState :=
  { ctxCreated := false, sourceNode := false, filterNode := none
  , routings := 0, warnings := 0 }

/-- setupAudio of Editor.tsx.  Creates the AudioContext on first call; then,
guarded by sourceNodeRef being unset, creates the media-element source and
the biquad filter and connects source to filter to destination.  The
creation is wrapped in try/catch: if the audio subsystem rejects the attach
(parameter attachRejects), the handler only logs a console.warn — no error
escapes, which is why this embedding is a total function into AudioState. -/
def setupAudio (attachRejects : Bool) (s : AudioState) : AudioState :=
  if s.sourceNode then { s with ctxCreated := true }
  else if attachRejects then
    { s with ctxCreated := true, warnings := s.warnings + 1 }
  else
    { s with ctxCreated := true, sourceNode := true
           , filterNode := some defaultBiquad, routings := s.routings + 1 }

/-- The audio useEffect of Editor.tsx (lines 308-330): switches the biquad
filter according to the noiseReduction / voiceIsolation flags.  Note the
if / else-if chain: noiseReduction is tested first. -/
def updateAudioFilter (p : EditParams) (f : FilterState) : FilterState :=
  if p.noiseReduction then
    { f with type := BiquadType.lowpass, frequency := 3000 }
  else if p.voiceIsolation then
    { f with type := BiquadType.bandpass, frequency := 1500, q := 1 }
  else
    { f with type := BiquadType.allpass }

/-- The quality argument of handleExport ('720p' | '1080p' | '4k'). -/
inductive Quality where
  | q720p
  | q1080p
  | q4k
deriving DecidableEq

/-- The literal string of each quality tag. -/
def Quality.label : Quality → String
  | Quality.q720p => "720p"
  | Quality.q1080p => "1080p"
  | Quality.q4k => "4k"

/-- MediaRecorder lifecycle state: started and not yet stopped, or stopped. -/
inductive RecState where
  | recording
  | stopped
deriving DecidableEq

/-- A MediaRecorder created by handleExport, together with the capture
parameters of the stream it encodes (the canvas captureStream rate and the
canvas pixel size) and its requested container type. -/
structure Recorder where
  fps : Nat
  width : Nat
  height : Nat
  mimeType : String
  state : RecState
deriving DecidableEq

/-- The Editor component state: useState hooks, the media-element refs the
handlers read and write, the canvas size, and the externally observable
effects (recorders ever created, download clicks, console.error logs, and
the asset store list that onAddAsset prepends to, as in App.tsx). -/
structure EditorState where
  selectedAsset : Option Asset
  overlayAsset : Option Asset
  params : EditParams
  overlayParams : Transform
  textParams : Transform
  textLayer : Option String
  activeToolCategory : ToolCategory
  isExporting : Bool
  isPlaying : Bool
  audio : AudioState
  canvasW : Nat
  canvasH : Nat
  recorders : List Recorder
  downloads : List String
  errors : Nat
  assets : List Asset
  mainSrc : String
  mainTime : ℚ
  mainPaused : Bool
  mainVolume : ℚ
  mainRate : ℚ
  overlayTime : ℚ
  overlayRate : ℚ
deriving DecidableEq

/-- Initial Editor state for a given asset-store list: the useState initial
values of Editor.tsx (selectedAsset is the first asset when one exists), a
fresh canvas at the HTML default 300 by 150, and untouched media elements. -/
def initEditor (assets : List Asset) : EditorState :=
  { selectedAsset := assets.head?
  , overlayAsset := none
  , params := DEFAULT_PARAMS
  , overlayParams := { x := 50, y := 50, scale := 3/10, rotation := 0 }
  , textParams := { x := 1/2, y := 4/5, scale := 1, rotation := 0 }
  , textLayer := none
  , activeToolCategory := ToolCategory.main
  , isExporting := false
  , isPlaying := false
  , audio := initAudio
  , canvasW := 300
  , canvasH := 150
  , recorders := []
  , downloads := []
  , errors := 0
  , assets := assets
  , mainSrc := ""
  , mainTime := 0
  , mainPaused := true
  , mainVolume := 1
  , mainRate := 1
  , overlayTime := 0
  , overlayRate := 1 }

/-- The useEffect of Editor.tsx keyed on selectedAsset (lines 101-108): it
loads the asset url into the hidden main video element and re-runs
setupAudio on it.  It touches nothing else — in particular it does not
write to params. -/
def selectAsset (attachRejects : Bool) (a : Asset) (s : EditorState) : EditorState :=
  let s1 := { s with selectedAsset := some a, mainSrc := a.url }
  { s1 with audio := setupAudio attachRejects s1.audio }

/-- The audio useEffect of Editor.tsx at the editor-state level: refresh the
biquad filter from the flags (when the filter node exists) and push volume
and playback rate to the media elements. -/
def applyAudioParams (s : EditorState) : EditorState :=
  let a :=
    match s.audio.filterNode with
    | none => s.audio
    | some f => { s.audio with filterNode := some (updateAudioFilter s.params f) }
  { s with audio := a
         , mainVolume := s.params.volume / 100
         , mainRate := s.params.speed
         , overlayRate := s.params.speed }

/-- The onClick of the Reducir Ruido toggle: flip noiseReduction; the audio
useEffect then runs on the new flags. -/
def toggleNoiseReduction (s : EditorState) : EditorState :=
  applyAudioParams
    { s with params := { s.params with noiseReduction := !s.params.noiseReduction } }

/-- The onClick of the Aislar Voz toggle: flip voiceIsolation; the audio
useEffect then runs on the new flags. -/
def toggleVoiceIsolation (s : EditorState) : EditorState :=
  applyAudioParams
    { s with params := { s.params with voiceIsolation := !s.params.voiceIsolation } }

/-- Modelled from the spec: the Button component (imported from
./components/Button, absent from the repository snapshot) is, per the spec,
a control that is disabled while an export is not Idle, so a click on it
while disabled dispatches nothing.  The Exportar Video button of Editor.tsx
passes disabled={isExporting} and an onClick that only toggles the
isExporting flag (it does not invoke handleExport). -/
def exportButtonClick (s : EditorState) : EditorState :=
  if s.isExporting then s
  else { s with isExporting := !s.isExporting }

/-- The conditional canvas resize at the top of draw (lines 149-153): set
the canvas to 1280 by 720 whenever its width is not already 1280. -/
def drawResizeCanvas (s : EditorState) : EditorState :=
  if s.canvasW ≠ 1280 then { s with canvasW := 1280, canvasH := 720 } else s

/-- A MediaRecorder as handleExport creates it: canvas captureStream at
30 frames per second, container video/webm, started immediately. -/
def startRecorder (w h : Nat) : Recorder :=
  { fps := 30, width := w, height := h, mimeType := "video/webm"
  , state := RecState.recording }

/-- The synchronous prefix of handleExport once the asset guard passed:
set isExporting, pause and rewind both media elements, capture the canvas
stream, create the recorder and start it. -/
def exportBegin (s : EditorState) : EditorState :=
  { s with isExporting := true
         , mainPaused := true
         , mainTime := 0
         , overlayTime := 0
         , recorders := s.recorders ++ [startRecorder s.canvasW s.canvasH] }

/-- The catch branch of handleExport: when the play() promise rejects, log a
console.error and clear isExporting.  Nothing else happens — in particular
no recorder.stop() is issued. -/
def exportPlayFailure (s : EditorState) : EditorState :=
  { s with errors := s.errors + 1, isExporting := false }

/-- Mark the most recently started recorder stopped (recorder.stop() on the
recorder handleExport holds). -/
def stopLast : List Recorder → List Recorder
  | [] => []
  | [r] => [{ r with state := RecState.stopped }]
  | r :: r2 :: rs => r :: stopLast (r2 :: rs)

/-- The asset that handleExport's onstop handler passes to onAddAsset. -/
def exportAsset (res : Quality) (uuid blobUrl : String) (now : Nat) : Asset :=
  { id := uuid, type := AssetType.video, url := blobUrl
  , prompt := "Export " ++ res.label, createdAt := now }

/-- The success tail of handleExport: playback ran, the duration timer fired
(recorder.stop(), pause both elements, setIsPlaying(false)), then the onstop
handler assembled the webm blob, clicked a download named
CineAI_Export_<timestamp>.webm, cleared isExporting and prepended the new
asset to the store (App.tsx prepends in handleAssetGenerated).  The fresh
object URL of the blob and the onstop timestamp are parameters. -/
def exportFinish (res : Quality) (uuid blobUrl : String) (now : Nat)
    (s : EditorState) : EditorState :=
  { s with recorders := stopLast s.recorders
         , mainPaused := true
         , isPlaying := false
         , downloads := s.downloads ++ ["CineAI_Export_" ++ toString now ++ ".webm"]
         , isExporting := false
         , assets := exportAsset res uuid blobUrl now :: s.assets }

/-- handleExport of Editor.tsx (lines 250-305), the whole run collapsed into
one transition because the flow is single-threaded and deterministic once we
fix whether the play() promise rejects (playFails).  Its only guard is
selectedAsset being present; it never consults isExporting. -/
def handleExport (playFails : Bool) (res : Quality) (uuid blobUrl : String)
    (now : Nat) (s : EditorState) : EditorState :=
  match s.selectedAsset with
  | none => s
  | some _ =>
    let s1 := exportBegin s
    if playFails then exportPlayFailure s1
    else exportFinish res uuid blobUrl now s1

/-- handleCanvasClick of Editor.tsx (lines 363-379).  The click coordinates
are already relative to the canvas rect, whose size is rectW by rectH.
With the overlay tool active and an overlay set, the overlay moves to a
fixed offset from the click; with a text layer set and the main tool
active, the text transform is replaced by the normalized click position
with neutral scale and rotation. -/
def handleCanvasClick (clickX clickY rectW rectH : ℚ) (s : EditorState) : EditorState :=
  let s1 :=
    if s.overlayAsset.isSome = true ∧ s.activeToolCategory = ToolCategory.overlay then
      { s with overlayParams :=
          { s.overlayParams with x := clickX - 100, y := clickY - 50 } }
    else s
  if s1.textLayer.isSome = true ∧ s1.activeToolCategory = ToolCategory.main then
    { s1 with textParams :=
        { x := clickX / rectW, y := clickY / rectH, scale := 1, rotation := 0 } }
  else s1

/-- A file delivered by the media-library file input. -/
structure ImportedFile where
  name : String
  mime : String
deriving DecidableEq

/-- The accept attribute of the file input: video/* or image/* files
(prefix test spelled out on the character lists so it evaluates in the
kernel). -/
def acceptsMime (m : String) : Bool :=
  "video/".data.isPrefixOf m.data || "image/".data.isPrefixOf m.data

/-- The onChange handler of the media-library file input (lines 514-519):
build an object URL for the file and hand onAddAsset an asset whose type is
always AssetType.VIDEO and whose prompt is the file name. -/
def importFile (uuid url : String) (now : Nat) (f : ImportedFile) : Asset :=
  { id := uuid, type := AssetType.video, url := url
  , prompt := f.name, createdAt := now }

/-- A 2D affine matrix in the canvas convention transform(a, b, c, d, e, f):
a point (x, y) maps to (a x + c y + e, b x + d y + f). -/
structure Mat2x3 where
  a : ℝ
  b : ℝ
  c : ℝ
  d : ℝ
  e : ℝ
  f : ℝ

/-- Composition of affine maps: apply n first, then m (matching how a later
canvas transform call composes onto the current matrix from the right, so
that it applies first to drawing coordinates). -/
def Mat2x3.comp (m n : Mat2x3) : Mat2x3 :=
  { a := m.a * n.a + m.c * n.b
  , b := m.b * n.a + m.d * n.b
  , c := m.a * n.c + m.c * n.d
  , d := m.b * n.c + m.d * n.d
  , e := m.a * n.e + m.c * n.f + m.e
  , f := m.b * n.e + m.d * n.f + m.f }

/-- The identity transform. -/
def idMat : Mat2x3 := { a := 1, b := 0, c := 0, d := 1, e := 0, f := 0 }

/-- ctx.translate(tx, ty). -/
def translateM (tx ty : ℝ) : Mat2x3 :=
  { a := 1, b := 0, c := 0, d := 1, e := tx, f := ty }

/-- ctx.scale(z, z). -/
def scaleM (z : ℝ) : Mat2x3 :=
  { a := z, b := 0, c := 0, d := z, e := 0, f := 0 }

/-- ctx.rotate(t), t in radians. -/
noncomputable def rotateM (t : ℝ) : Mat2x3 :=
  { a := Real.cos t, b := Real.sin t, c := -Real.sin t, d := Real.cos t
  , e := 0, f := 0 }

/-- The transform draw applies to the primary layer (lines 161-166):
translate to the surface center, scale by zoom, rotate by the angle in
degrees converted to radians, translate back. -/
noncomputable def primaryTransform (zoom rotateDeg w h : ℝ) : Mat2x3 :=
  (((translateM (w / 2) (h / 2)).comp (scaleM zoom)).comp
      (rotateM (rotateDeg * Real.pi / 180))).comp
    (translateM (-(w / 2)) (-(h / 2)))

/-- The four factors draw writes into ctx.filter (line 169), as a record:
brightness(b%) contrast(c%) saturate(s%) blur(p px). -/
structure FilterSettings where
  brightness : ℚ
  contrast : ℚ
  saturate : ℚ
  blur : ℚ
deriving DecidableEq

/-- The filter record draw builds from the parameters. -/
def filterOf (p : EditParams) : FilterSettings :=
  { brightness := p.brightness, contrast := p.contrast
  , saturate := p.saturate, blur := p.blur }

/-- The neutral filter: brightness(100%) contrast(100%) saturate(100%)
blur(0px) leaves pixels unchanged per the CSS filter definitions. -/
def neutralFilter : FilterSettings :=
  { brightness := 100, contrast := 100, saturate := 100, blur := 0 }

/-- Everything the primary-layer pass of draw configures before
drawImage(mainVid, 0, 0, width, height): the accumulated transform, the
filter settings, and globalAlpha = opacity / 100. -/
noncomputable def primaryPass (p : EditParams) (w h : ℝ) : Mat2x3 × FilterSettings × ℚ :=
  (primaryTransform (p.zoom : ℝ) (p.rotate : ℝ) w h, filterOf p, p.opacity / 100)

/-- Drawing the source frame directly at full surface size and opacity:
identity transform, neutral filter, alpha 1. -/
noncomputable def identityPass : Mat2x3 × FilterSettings × ℚ := (idMat, neutralFilter, 1)

/-- A concrete primary asset, as the generation or import flow would add. -/
def asset1 : Asset :=
  { id := "a1", type := AssetType.video, url := "blob:a1"
  , prompt := "clip one", createdAt := 1 }

/-- A second, distinct asset. -/
def asset2 : Asset :=
  { id := "a2", type := AssetType.image, url := "blob:a2"
  , prompt := "image two", createdAt := 2 }

/-- Editor state after mounting with one asset and running the
selectedAsset effect: the asset is loaded and the audio graph attached. -/
def sAudioReady : EditorState := selectAsset false asset1 (initEditor [asset1])

/-- sAudioReady after the first draw tick resized the canvas to 1280x720. -/
def sSelected : EditorState := drawResizeCanvas sAudioReady

/-- An export in flight: handleExport's synchronous prefix has run on
sSelected, so isExporting is set and one recorder is recording. -/
def sBusy : EditorState := exportBegin sSelected

/-- sAudioReady with one parameter moved off its default. -/
def sModifiedParams : EditorState :=
  { sAudioReady with params := { DEFAULT_PARAMS with brightness := 150 } }

/-- Editor state with a text layer enabled (main tool active by default). -/
def sText : EditorState := { initEditor [asset1] with textLayer := some "Hola" }

/-- Two export runs from the same state that differ only in the quality
argument behave identically except for the label of the appended asset:
same recorder (30 fps, the canvas pixel size, video/webm, stopped), same
download, assets prepended that differ only in their prompt, and equal
states once the asset lists are erased. -/
def QualityOnlyLabel (res1 res2 : Quality) (uuid blobUrl : String) (now : Nat)
    (s : EditorState) : Prop :=
  (handleExport false res1 uuid blobUrl now s).recorders
      = s.recorders ++ [{ fps := 30, width := 1280, height := 720
                        , mimeType := "video/webm", state := RecState.stopped }]
  ∧ (handleExport false res2 uuid blobUrl now s).recorders
      = (handleExport false res1 uuid blobUrl now s).recorders
  ∧ (handleExport false res2 uuid blobUrl now s).downloads
      = (handleExport false res1 uuid blobUrl now s).downloads
  ∧ (handleExport false res1 uuid blobUrl now s).assets
      = exportAsset res1 uuid blobUrl now :: s.assets
  ∧ (handleExport false res2 uuid blobUrl now s).assets
      = exportAsset res2 uuid blobUrl now :: s.assets
  ∧ exportAsset res1 uuid blobUrl now
      = { exportAsset res2 uuid blobUrl now with prompt := "Export " ++ res1.label }
  ∧ { handleExport false res1 uuid blobUrl now s with assets := [] }
      = { handleExport false res2 uuid blobUrl now s with assets := [] }

/-- Invariant used to bound the number of routings setupAudio can create:
while no source node is stored, no routing has been made, and never more
than one routing exists. -/
def AudioInv (s : AudioState) : Prop :=
  (s.sourceNode = false → s.routings = 0) ∧ s.routings ≤ 1

theorem setupAudio_inv (r : Bool) (s : AudioState) (h : AudioInv s) :
    AudioInv (setupAudio r s) := by
  obtain ⟨h0, h1⟩ := h
  unfold setupAudio AudioInv
  by_cases hs : s.sourceNode = true
  · simp [hs, h1]
  · simp only [Bool.not_eq_true] at hs
    have hr0 : s.routings = 0 := h0 hs
    cases r <;> simp [hs, hr0]

theorem setupAudio_iterate_inv (r : Bool) (n : Nat) :
    AudioInv ((setupAudio r)^[n] initAudio) := by
  induction n with
  | zero => exact ⟨fun _ => rfl, by simp [initAudio]⟩
  | succ n ih =>
    rw [Function.iterate_succ_apply']
    exact setupAudio_inv r _ ih

/-- Claim C6: attaching the audio graph is one-time and idempotent.  Over any
number of calls at most one routing is created; a call after a successful
attach changes nothing (so no duplicate routing and nothing to throw); an
attach the subsystem rejects creates no routing and only logs a warning (the
try/catch keeps setupAudio total, so the failure is never propagated). -/
theorem setupAudio_attach_once (r r2 : Bool) (n : Nat) (s : AudioState) :
    ((setupAudio r)^[n] initAudio).routings ≤ 1
    ∧ setupAudio r2 (setupAudio false s) = setupAudio false s
    ∧ (setupAudio true s).routings = s.routings
    ∧ (setupAudio true s).sourceNode = s.sourceNode
    ∧ (setupAudio true initAudio).warnings = 1 := by
  refine ⟨(setupAudio_iterate_inv r n).2, ?_, ?_, ?_, by simp [setupAudio, initAudio]⟩
  · by_cases hs : s.sourceNode = true <;> simp [setupAudio, hs]
  · by_cases hs : s.sourceNode = true <;> simp [setupAudio, hs]
  · by_cases hs : s.sourceNode = true <;> simp [setupAudio, hs]

/-- Counterexample to claim C1: handleExport consults only selectedAsset,
never isExporting, so invoking it while an export is in flight (sBusy) is
not a no-op — a second MediaRecorder is created. -/
theorem handleExport_during_export_starts_second_recorder :
    sBusy.isExporting = true
    ∧ sBusy.recorders.length = 1
    ∧ (handleExport false Quality.q1080p "u" "b" 7 sBusy).recorders.length = 2
    ∧ handleExport false Quality.q1080p "u" "b" 7 sBusy ≠ sBusy := by
  refine ⟨rfl, rfl, rfl, ?_⟩
  intro h
  have h2 := congrArg (fun st => st.recorders.length) h
  simp only at h2
  exact absurd h2 (by decide)

/-- Claim C1 (amended): the in-flight guard lives in the UI, not in
handleExport — the export button is disabled while isExporting, so a click
during an export is ignored: the state is unchanged (still Recording) and
no recorder is created. -/
theorem exportButton_ignored_while_exporting (s : EditorState)
    (h : s.isExporting = true) :
    exportButtonClick s = s ∧ (exportButtonClick s).recorders = s.recorders := by
  have h1 : exportButtonClick s = s := by simp [exportButtonClick, h]
  exact ⟨h1, by rw [h1]⟩

/-- Witness for the amended claim C1 at the concrete in-flight state. -/
theorem exportButton_ignored_while_exporting_witness :
    sBusy.isExporting = true ∧ exportButtonClick sBusy = sBusy :=
  ⟨rfl, (exportButton_ignored_while_exporting sBusy rfl).1⟩

/-- Claim C2 evaluated at the failing input: when play() rejects during an
export, the catch branch does return to Idle (isExporting false) and logs a
console.error, but it never issues recorder.stop(), so the recorder started
before the await is left in recording state — a dangling recorder, against
the claim. -/
theorem export_play_failure_leaves_recorder_recording :
    (handleExport true Quality.q720p "u" "b" 7 sSelected).isExporting = false
    ∧ (handleExport true Quality.q720p "u" "b" 7 sSelected).errors = 1
    ∧ (handleExport true Quality.q720p "u" "b" 7 sSelected).recorders
        = [{ fps := 30, width := 1280, height := 720
           , mimeType := "video/webm", state := RecState.recording }] := by
  exact ⟨rfl, rfl, by decide⟩

/-- Counterexample to claim C3: enabling noiseReduction and then
voiceIsolation leaves both flags set, and the effect's if / else-if chain
tests noiseReduction first, so the biquad filter ends as lowpass — the
earlier mode, not the last-set BandPass. -/
theorem noise_then_voice_filter_is_lowpass_not_bandpass :
    ((toggleVoiceIsolation (toggleNoiseReduction sAudioReady)).audio.filterNode).map
        FilterState.type = some BiquadType.lowpass
    ∧ BiquadType.lowpass ≠ BiquadType.bandpass := by
  exact ⟨rfl, by decide⟩

/-- Claim C3 (amended): enabling noiseReduction and then voiceIsolation
leaves both flags set and the audio filter in LowPass — noiseReduction
takes precedence in the effect's if / else-if chain, so the earlier mode,
not the last-set one, wins while both are enabled. -/
theorem noiseReduction_supersedes_voiceIsolation (s : EditorState)
    (f : FilterState) (hf : s.audio.filterNode = some f)
    (hnr : s.params.noiseReduction = false)
    (hvi : s.params.voiceIsolation = false) :
    ((toggleVoiceIsolation (toggleNoiseReduction s)).audio.filterNode).map
        FilterState.type = some BiquadType.lowpass
    ∧ (toggleVoiceIsolation (toggleNoiseReduction s)).params.noiseReduction = true
    ∧ (toggleVoiceIsolation (toggleNoiseReduction s)).params.voiceIsolation = true := by
  simp [toggleNoiseReduction, toggleVoiceIsolation, applyAudioParams,
    updateAudioFilter, hf, hnr, hvi]

/-- Witness for the amended claim C3 at the concrete audio-ready state. -/
theorem noiseReduction_supersedes_voiceIsolation_witness :
    sAudioReady.audio.filterNode = some defaultBiquad
    ∧ sAudioReady.params.noiseReduction = false
    ∧ sAudioReady.params.voiceIsolation = false
    ∧ (((toggleVoiceIsolation (toggleNoiseReduction sAudioReady)).audio.filterNode).map
          FilterState.type = some BiquadType.lowpass
       ∧ (toggleVoiceIsolation (toggleNoiseReduction sAudioReady)).params.noiseReduction = true
       ∧ (toggleVoiceIsolation (toggleNoiseReduction sAudioReady)).params.voiceIsolation = true) :=
  ⟨rfl, rfl, rfl,
    noiseReduction_supersedes_voiceIsolation sAudioReady defaultBiquad rfl rfl rfl⟩

/-- Counterexample to claim C4: changing the selected primary asset (from
asset1 to the distinct asset2) leaves EditParameters untouched — the
modified brightness 150 survives, so the record is not reset to its
defaults. -/
theorem selectAsset_change_does_not_reset_params :
    sModifiedParams.selectedAsset = some asset1
    ∧ asset2 ≠ asset1
    ∧ (selectAsset false asset2 sModifiedParams).selectedAsset = some asset2
    ∧ (selectAsset false asset2 sModifiedParams).params.brightness = 150
    ∧ DEFAULT_PARAMS.brightness = 100
    ∧ (selectAsset false asset2 sModifiedParams).params ≠ DEFAULT_PARAMS := by
  refine ⟨rfl, by decide, rfl, rfl, rfl, ?_⟩
  intro h
  have h2 := congrArg EditParams.brightness h
  have h3 : (selectAsset false asset2 sModifiedParams).params.brightness = (150 : ℚ) := rfl
  rw [h3] at h2
  norm_num [DEFAULT_PARAMS] at h2

/-- Claim C4 (amended): changing the selected primary asset reloads the
media source and re-runs the audio setup but never writes to
EditParameters; the record holds the defaults only from its one-time
initialization at mount. -/
theorem selectAsset_preserves_params (r : Bool) (a : Asset) (s : EditorState)
    (l : List Asset) :
    (selectAsset r a s).params = s.params
    ∧ (initEditor l).params = DEFAULT_PARAMS :=
  ⟨rfl, rfl⟩

/-- Claim C5: at the neutral parameter setting (the defaults: zoom 1,
rotate 0, brightness/contrast/saturation 100, blur 0, opacity 100) the
primary-layer pass of draw is the identity case — the accumulated canvas
transform is the identity matrix, the filter settings are neutral, and
globalAlpha is 1, i.e. exactly drawing the source frame at full surface
size and full opacity. -/
theorem neutral_params_primary_pass_is_identity :
    primaryPass DEFAULT_PARAMS 1280 720 = identityPass := by
  unfold primaryPass identityPass primaryTransform filterOf neutralFilter DEFAULT_PARAMS
  norm_num [Mat2x3.comp, translateM, scaleM, rotateM, idMat]

/-- Claim C7: with no primary asset selected, handleExport returns without
doing anything, whatever the quality argument: the state (in particular
isExporting, the recorders and the asset store) is exactly as before. -/
theorem handleExport_no_asset_noop (playFails : Bool) (res : Quality)
    (uuid blobUrl : String) (now : Nat) (s : EditorState)
    (h : s.selectedAsset = none) :
    handleExport playFails res uuid blobUrl now s = s
    ∧ (handleExport playFails res uuid blobUrl now s).isExporting = s.isExporting
    ∧ (handleExport playFails res uuid blobUrl now s).recorders = s.recorders
    ∧ (handleExport playFails res uuid blobUrl now s).assets = s.assets := by
  have h1 : handleExport playFails res uuid blobUrl now s = s := by
    unfold handleExport
    rw [h]
  exact ⟨h1, by rw [h1], by rw [h1], by rw [h1]⟩

/-- Witness for claim C7: the empty editor has no selection, and a 4k
export call leaves it untouched. -/
theorem handleExport_no_asset_noop_witness :
    (initEditor []).selectedAsset = none
    ∧ (handleExport false Quality.q4k "u" "b" 7 (initEditor []) = initEditor []
       ∧ (handleExport false Quality.q4k "u" "b" 7 (initEditor [])).isExporting
           = (initEditor []).isExporting
       ∧ (handleExport false Quality.q4k "u" "b" 7 (initEditor [])).recorders
           = (initEditor []).recorders
       ∧ (handleExport false Quality.q4k "u" "b" 7 (initEditor [])).assets
           = (initEditor []).assets) :=
  ⟨rfl, handleExport_no_asset_noop false Quality.q4k "u" "b" 7 (initEditor []) rfl⟩

/-- Claim C8: a click on the drawing surface while a text layer is enabled
and the main tool category is active replaces the text transform by exactly
the click's fractional coordinates with neutral scale 1 and rotation 0. -/
theorem textClick_sets_fractional_position (clickX clickY rectW rectH : ℚ)
    (s : EditorState) (ht : s.textLayer.isSome = true)
    (hc : s.activeToolCategory = ToolCategory.main) :
    (handleCanvasClick clickX clickY rectW rectH s).textParams
      = { x := clickX / rectW, y := clickY / rectH, scale := 1, rotation := 0 } := by
  unfold handleCanvasClick
  have hov : ¬ (s.overlayAsset.isSome = true
      ∧ s.activeToolCategory = ToolCategory.overlay) := by
    rintro ⟨-, h2⟩
    rw [hc] at h2
    exact absurd h2 (by decide)
  simp [hov, ht, hc]

/-- Witness for claim C8, the spec scenario: a click at (320, 400) on a
640 by 500 surface with a text layer enabled and the main tool active puts
the text at the fractional position (0.5, 0.8), scale 1, rotation 0. -/
theorem textClick_sets_fractional_position_witness :
    sText.textLayer.isSome = true
    ∧ sText.activeToolCategory = ToolCategory.main
    ∧ (handleCanvasClick 320 400 640 500 sText).textParams
        = { x := 1/2, y := 4/5, scale := 1, rotation := 0 } := by
  refine ⟨rfl, rfl, ?_⟩
  rw [textClick_sets_fractional_position 320 400 640 500 sText rfl rfl]
  simp only [Transform.mk.injEq]
  norm_num

/-- Claim C9: every file accepted by the media-library input (video/* or
image/* alike) is registered in the asset store as an asset of kind Video
whose label is the file's name — the handler never inspects the MIME
type. -/
theorem importFile_registers_video_with_filename (uuid url : String)
    (now : Nat) (f : ImportedFile) (_hacc : acceptsMime f.mime = true) :
    (importFile uuid url now f).type = AssetType.video
    ∧ (importFile uuid url now f).prompt = f.name :=
  ⟨rfl, rfl⟩

/-- Witness for claim C9 on an image file: photo.png with MIME image/png
passes the accept filter and is still registered as kind Video. -/
theorem importFile_registers_video_with_filename_witness :
    acceptsMime "image/png" = true
    ∧ ((importFile "u9" "blob:f" 7 { name := "photo.png", mime := "image/png" }).type
          = AssetType.video
       ∧ (importFile "u9" "blob:f" 7 { name := "photo.png", mime := "image/png" }).prompt
          = "photo.png") :=
  ⟨by decide,
    importFile_registers_video_with_filename "u9" "blob:f" 7
      { name := "photo.png", mime := "image/png" } (by decide)⟩

/-- stopLast rewrites only the last element of the recorder list. -/
theorem stopLast_append (l : List Recorder) (r : Recorder) :
    stopLast (l ++ [r]) = l ++ [{ r with state := RecState.stopped }] := by
  induction l with
  | nil => rfl
  | cons x xs ih =>
    cases xs with
    | nil => rfl
    | cons y ys =>
      exact congrArg (x :: ·) ih

/-- Claim C10: an export run records the canvas stream at 30 frames per
second from the canvas pixel surface (1280 by 720 once draw has sized it)
into a video/webm container regardless of the requested quality; two runs
differing only in the quality argument produce identical states except
that the prepended asset's label is Export followed by the quality tag. -/
theorem export_quality_changes_only_label (res1 res2 : Quality)
    (uuid blobUrl : String) (now : Nat) (s : EditorState) (a : Asset)
    (hsel : s.selectedAsset = some a) (hw : s.canvasW = 1280)
    (hh : s.canvasH = 720) :
    QualityOnlyLabel res1 res2 uuid blobUrl now s := by
  unfold QualityOnlyLabel handleExport
  rw [hsel]
  simp only [exportBegin, exportFinish, exportAsset, startRecorder, hw, hh,
    stopLast_append, if_neg (Bool.false_ne_true)]
  and_intros <;> trivial

/-- Witness for claim C10 at the concrete ready state, qualities 720p and
4k. -/
theorem export_quality_changes_only_label_witness :
    sSelected.selectedAsset = some asset1
    ∧ sSelected.canvasW = 1280
    ∧ sSelected.canvasH = 720
    ∧ QualityOnlyLabel Quality.q720p Quality.q4k "u" "b" 7 sSelected :=
  ⟨rfl, rfl, rfl,
    export_quality_changes_only_label Quality.q720p Quality.q4k "u" "b" 7
      sSelected asset1 rfl rfl rfl⟩

end CineAI
